import Mathlib

/-!
Verification of the StreamFinder recommendation engine
(`backend/app/services.py`, `backend/app/config.py`).

The Python service is shallowly embedded: every upstream HTTP call
(YouTube search, TMDB search / details / similar / discover / watch
providers / title) is a field of an `Env` record returning `Option`
values (`none` models a network error, timeout, non-2xx status or
missing data — the code maps all of these to its fallback branch).
The process-wide random generator, the wall clock used for recency
scoring and `urllib.parse.quote` are further `Env` fields.  The
in-memory `TTLCache` is modelled as an association list threaded
through `getRecommendations`; an entry being present models "within
TTL", and insertion models the write-back.  Python floats are
modelled as rationals, machine integers as `Int`/`Nat` (no overflow
is reachable: all arithmetic here is small).
-/

namespace StreamFinder

/-- Configuration record, from `backend/app/config.py` (`Settings`). -/
structure Settings where
  youtube_api_key : String
  tmdb_api_key : String
  database_url : String := "sqlite+aiosqlite:///./quickflicks.db"
  api_timeout : Nat := 10
  cache_ttl : Nat := 180
  max_results_per_query : Nat := 50
deriving DecidableEq

/-- A result item as returned by the service (the dicts built in
`services.py`).  The plain YouTube/TikTok dicts do not carry the
`all_platforms`, `rating` and `year` keys; those are `Option` fields. -/
structure Item where
  id : String
  title : String
  description : String
  thumbnail : String
  channel : String
  published_at : String
  platform : String
  url : String
  allPlatforms : Option (List String) := none
  rating : Option ℚ := none
  year : Option String := none
deriving DecidableEq

/-- One raw item of a YouTube search response (`item["id"]["videoId"]`
plus the `snippet` fields read by `_transform_youtube_item`). -/
structure YtItem where
  videoId : Option String
  title : String
  description : String
  thumbnail : String
  channel : String
  publishedAt : String
deriving DecidableEq

/-- A YouTube search response body: the optional embedded `"error"`
payload and the `"items"` list. -/
structure YtResponse where
  hasError : Bool
  items : List YtItem
deriving DecidableEq

/-- The query parameters that vary between the three YouTube search
call sites in `services.py`. -/
structure YtParams where
  q : String
  region : String
  maxResults : Nat
  videoDuration : Option String := none
  order : Option String := none
deriving DecidableEq

/-- TMDB media kind; derived from the request category. -/
inductive MediaType where
  | movie
  | tv
deriving DecidableEq

/-- One raw entry of a TMDB search / similar / discover response
(the keys read by the service). -/
structure TmdbRaw where
  id : Nat
  title : String
  overview : String
  posterPath : Option String
  releaseDate : String
  popularity : ℚ
deriving DecidableEq

/-- The candidate dicts built from TMDB responses (`_search_tmdb`,
`_get_tmdb_similar`, the discover strategy). -/
structure CandItem where
  id : Nat
  title : String
  overview : String
  posterUrl : String
  releaseDate : String
  popularity : ℚ
deriving DecidableEq

/-- Parsed output of `_get_tmdb_details`: the enriched metadata record
used for similarity scoring (spec's SourceDetails/CandidateDetails). -/
structure Details where
  id : Nat
  director : Option String
  cast : List String
  genres : List String
  keywords : List String
  companies : List String
  budget : Int
  revenue : Int
  runtime : Int
  rating : ℚ
  release_year : String
  collection : Option String
deriving DecidableEq

/-- A platform availability entry (`{platform, url}`). -/
structure Platform where
  platform : String
  url : String
deriving DecidableEq

/-- A TMDB watch/providers response for the US region: the lists of
`provider_id`s under `flatrate` and `buy`. -/
structure ProvData where
  flatrate : List Nat
  buy : List Nat
deriving DecidableEq

/-- The environment: settings plus one field per upstream call of the
service, and the sources of nondeterminism.  `none` models an
exception / error / missing-data outcome of the call. -/
structure Env where
  settings : Settings
  ytSearch : YtParams → Option YtResponse
  tmdbSearch : String → MediaType → Option (List TmdbRaw)
  tmdbDetails : Nat → MediaType → Option Details
  tmdbSimilar : Nat → MediaType → Option (List TmdbRaw)
  tmdbDiscover : List Nat → MediaType → Option (List TmdbRaw)
  tmdbProviders : Nat → MediaType → Option ProvData
  tmdbTitle : Nat → MediaType → Option String
  daysOld : String → Option Int
  rand : Nat → ℚ
  quote : String → String

/-! ### Small string/number helpers (Python built-ins used by the code) -/

/-- Python truthiness of an optional string: present and non-empty. -/
def truthyS : Option String → Bool
  | some s => !(s == "")
  | none => false

/-- The decimal digit character of `d < 10`. -/
def digitChar (d : Nat) : Char :=
  match d with
  | 0 => '0' | 1 => '1' | 2 => '2' | 3 => '3' | 4 => '4'
  | 5 => '5' | 6 => '6' | 7 => '7' | 8 => '8' | _ => '9'

/-- Decimal digits of a natural number, most significant first, with
explicit fuel (any fuel > n suffices; structural recursion keeps the
definition kernel-computable). -/
def natDigitsAux : Nat → Nat → List Char
  | 0, _ => []
  | fuel + 1, n =>
    if n < 10 then [digitChar n]
    else natDigitsAux fuel (n / 10) ++ [digitChar (n % 10)]

/-- `str(n)` / an f-string on an int, for a natural number. -/
def natToStr (n : Nat) : String :=
  ⟨natDigitsAux (n + 1) n⟩

/-- Numeric value of a digit character produced by `digitChar`. -/
def digitVal (c : Char) : Nat :=
  c.toNat - 48

/-- Decode a digit string (left inverse of `natDigits`). -/
def digitsVal (l : List Char) : Nat :=
  l.foldl (fun acc c => acc * 10 + digitVal c) 0

theorem digitVal_digitChar (d : Nat) (h : d < 10) : digitVal (digitChar d) = d := by
  interval_cases d <;> rfl

theorem digitsVal_foldl (l : List Char) (acc : Nat) :
    l.foldl (fun a c => a * 10 + digitVal c) acc =
      acc * 10 ^ l.length + digitsVal l := by
  induction l generalizing acc with
  | nil => simp [digitsVal]
  | cons c t ih =>
    simp only [List.foldl_cons, digitsVal, List.length_cons]
    rw [ih, ih]
    ring

theorem digitsVal_natDigitsAux :
    ∀ fuel n : Nat, n < fuel → digitsVal (natDigitsAux fuel n) = n := by
  intro fuel
  induction fuel with
  | zero => omega
  | succ f ih =>
    intro n hn
    rw [natDigitsAux]
    split
    · rename_i hlt
      simp [digitsVal, digitVal_digitChar n hlt]
    · rename_i hge
      have hk : n / 10 < f := by omega
      have hmod : n % 10 < 10 := Nat.mod_lt _ (by omega)
      have h1 : List.foldl (fun a c => a * 10 + digitVal c) 0 (natDigitsAux f (n / 10)) =
          n / 10 := ih (n / 10) hk
      simp only [digitsVal, List.foldl_append, List.foldl_cons, List.foldl_nil]
      rw [h1, digitVal_digitChar _ hmod]
      omega

theorem natToStr_injective : Function.Injective natToStr := by
  intro a b h
  have hd : natDigitsAux (a + 1) a = natDigitsAux (b + 1) b := congrArg String.data h
  have := congrArg digitsVal hd
  rwa [digitsVal_natDigitsAux (a + 1) a (by omega),
       digitsVal_natDigitsAux (b + 1) b (by omega)] at this

/-- Does `needle` occur as a contiguous substring starting at the head? -/
def startsWithChars : List Char → List Char → Bool
  | _, [] => true
  | [], _ :: _ => false
  | a :: as, b :: bs => a == b && startsWithChars as bs

/-- Python's `needle in hay` on strings, on the character lists. -/
def hasSubChars : List Char → List Char → Bool
  | l, n =>
    startsWithChars l n ||
      match l with
      | [] => false
      | _ :: t => hasSubChars t n

/-- Python's `needle in hay` substring test. -/
def strIn (needle hay : String) : Bool :=
  hasSubChars hay.data needle.data

/-- ASCII lower-casing of one character (`str.lower` on the ASCII
range, which is all the code's keys use). -/
def charLower (c : Char) : Char :=
  match c with
  | 'A' => 'a' | 'B' => 'b' | 'C' => 'c' | 'D' => 'd' | 'E' => 'e' | 'F' => 'f'
  | 'G' => 'g' | 'H' => 'h' | 'I' => 'i' | 'J' => 'j' | 'K' => 'k' | 'L' => 'l'
  | 'M' => 'm' | 'N' => 'n' | 'O' => 'o' | 'P' => 'p' | 'Q' => 'q' | 'R' => 'r'
  | 'S' => 's' | 'T' => 't' | 'U' => 'u' | 'V' => 'v' | 'W' => 'w' | 'X' => 'x'
  | 'Y' => 'y' | 'Z' => 'z' | other => other

/-- ASCII upper-casing of one character (`str.upper`). -/
def charUpper (c : Char) : Char :=
  match c with
  | 'a' => 'A' | 'b' => 'B' | 'c' => 'C' | 'd' => 'D' | 'e' => 'E' | 'f' => 'F'
  | 'g' => 'G' | 'h' => 'H' | 'i' => 'I' | 'j' => 'J' | 'k' => 'K' | 'l' => 'L'
  | 'm' => 'M' | 'n' => 'N' | 'o' => 'O' | 'p' => 'P' | 'q' => 'Q' | 'r' => 'R'
  | 's' => 'S' | 't' => 'T' | 'u' => 'U' | 'v' => 'V' | 'w' => 'W' | 'x' => 'X'
  | 'y' => 'Y' | 'z' => 'Z' | other => other

/-- Python's `str.lower()` (ASCII range). -/
def strToLower (s : String) : String :=
  ⟨s.data.map charLower⟩

/-- Python's `str.upper()` (ASCII range). -/
def strToUpper (s : String) : String :=
  ⟨s.data.map charUpper⟩

/-- Decimal value of a digit character, `none` otherwise. -/
def parseDigit? (c : Char) : Option Nat :=
  if 48 ≤ c.toNat && c.toNat ≤ 57 then some (c.toNat - 48) else none

/-- Value of a non-empty all-digit character list; `none` otherwise. -/
def digitsToNat? : List Char → Option Nat
  | [] => none
  | l =>
    l.foldl
      (fun acc c =>
        match acc, parseDigit? c with
        | some a, some d => some (a * 10 + d)
        | _, _ => none)
      (some 0)

/-- Python's `int(str)` on the inputs the code feeds it (an optional
sign followed by digits; anything else raises, i.e. `none`). -/
def pyInt? (s : String) : Option Int :=
  match s.data with
  | [] => none
  | '-' :: rest => (digitsToNat? rest).map fun n => -(n : Int)
  | '+' :: rest => (digitsToNat? rest).map fun n => (n : Int)
  | l => (digitsToNat? l).map fun n => (n : Int)

/-! ### Stable descending sort (Python's `list.sort(key=..., reverse=True)`)

Python's sort is stable; sorting with `reverse=True` keeps the original
relative order of items with equal keys.  A stable insertion sort has
exactly that behaviour: a later item is placed after every earlier item
whose key is greater than or equal to its own. -/

/-- Insert `x` into a descending-sorted list, after all entries whose
key is ≥ its own (stability). -/
def insertDescBy (key : α → ℚ) (x : α) : List α → List α
  | [] => [x]
  | y :: ys => if key x ≤ key y then y :: insertDescBy key x ys else x :: y :: ys

/-- Stable sort, descending by `key`: the model of
`list.sort(key=..., reverse=True)`. -/
def sortDescBy (key : α → ℚ) (l : List α) : List α :=
  l.foldl (fun acc x => insertDescBy key x acc) []

theorem insertDescBy_perm (key : α → ℚ) (x : α) (l : List α) :
    (insertDescBy key x l).Perm (x :: l) := by
  induction l with
  | nil => simp [insertDescBy]
  | cons y ys ih =>
    rw [insertDescBy]
    split
    · exact ((ih.cons y).trans (List.Perm.swap x y ys))
    · exact List.Perm.refl _

theorem sortDescBy_foldl_perm (key : α → ℚ) (l acc : List α) :
    (l.foldl (fun a x => insertDescBy key x a) acc).Perm (acc ++ l) := by
  induction l generalizing acc with
  | nil => simp
  | cons x xs ih =>
    simp only [List.foldl_cons]
    refine (ih (insertDescBy key x acc)).trans ?_
    refine (List.Perm.append_right xs (insertDescBy_perm key x acc)).trans ?_
    exact List.perm_middle.symm

theorem sortDescBy_perm (key : α → ℚ) (l : List α) :
    (sortDescBy key l).Perm l := by
  simpa using sortDescBy_foldl_perm key l []

/-! ### Fallback catalog (`_get_mock_youtube_results`,
`_get_mock_shorts_results`, `_get_mock_movie_results`) -/

/-- The `(title, video_id, thumbnail, channel)` tuples of
`_get_mock_youtube_results`. -/
def mockYoutubeVideos : List (String × String × String × String) :=
  [("MrBeast - $1 vs $500,000 Experiences", "jk7GA4EZZrw", "https://i.ytimg.com/vi/jk7GA4EZZrw/hqdefault.jpg", "MrBeast"),
   ("Mark Rober - Glitter Bomb 5.0", "h4T_LlK1VE4", "https://i.ytimg.com/vi/h4T_LlK1VE4/hqdefault.jpg", "Mark Rober"),
   ("Veritasium - The Most Powerful Computers", "IxkSlnrRFqc", "https://i.ytimg.com/vi/IxkSlnrRFqc/hqdefault.jpg", "Veritasium"),
   ("Marques Brownlee - iPhone 15 Review", "TUXpoM9OY3M", "https://i.ytimg.com/vi/TUXpoM9OY3M/hqdefault.jpg", "MKBHD"),
   ("Kurzgesagt - What if You Detonated a Nuclear Bomb", "5iPH-br_eJQ", "https://i.ytimg.com/vi/5iPH-br_eJQ/hqdefault.jpg", "Kurzgesagt"),
   ("Vsauce - What If Everyone Jumped at Once", "jHbyQ_AQP8c", "https://i.ytimg.com/vi/jHbyQ_AQP8c/hqdefault.jpg", "Vsauce"),
   ("Dude Perfect - Extreme Hide and Seek", "rf0Lsjewg8c", "https://i.ytimg.com/vi/rf0Lsjewg8c/hqdefault.jpg", "Dude Perfect"),
   ("Casey Neistat - DO WHAT YOU CAN'T", "jG7dSXcfVqE", "https://i.ytimg.com/vi/jG7dSXcfVqE/hqdefault.jpg", "Casey Neistat")]

/-- `_get_mock_youtube_results`. -/
def mockYoutubeResults (query : String) : List Item :=
  mockYoutubeVideos.map fun t =>
    { id := t.2.1
      title := t.1
      description := "Popular video about " ++ query
      thumbnail := t.2.2.1
      channel := t.2.2.2
      published_at := "2024-01-15T12:00:00Z"
      platform := "youtube"
      url := "https://www.youtube.com/watch?v=" ++ t.2.1 }

/-- The `(title, video_id, thumbnail, channel)` tuples of
`_get_mock_shorts_results`. -/
def mockShortsVideos : List (String × String × String × String) :=
  [("Labubu Unboxing #1", "nXA_f0xBSjw", "https://i.ytimg.com/vi/nXA_f0xBSjw/hqdefault.jpg", "Toy Reviews"),
   ("Labubu Collection Tour", "8VGF-rQqF7Q", "https://i.ytimg.com/vi/8VGF-rQqF7Q/hqdefault.jpg", "Collectibles Hub"),
   ("Viral Dance Trend", "2g6J6vT5mBU", "https://i.ytimg.com/vi/2g6J6vT5mBU/hqdefault.jpg", "TikTok Dancer"),
   ("Funny Cat Moment", "J---aiyznGQ", "https://i.ytimg.com/vi/J---aiyznGQ/hqdefault.jpg", "Cat Lover"),
   ("Quick Recipe Hack", "0FTw0UHb3vw", "https://i.ytimg.com/vi/0FTw0UHb3vw/hqdefault.jpg", "Food Shorts"),
   ("Life Hack You Need", "dQw4w9WgXcQ", "https://i.ytimg.com/vi/dQw4w9WgXcQ/hqdefault.jpg", "Daily Tips"),
   ("Satisfying Video", "9bZkp7q19f0", "https://i.ytimg.com/vi/9bZkp7q19f0/hqdefault.jpg", "Oddly Satisfying"),
   ("Epic Fail Compilation", "K5le9sYdYkM", "https://i.ytimg.com/vi/K5le9sYdYkM/hqdefault.jpg", "Fail Army"),
   ("Magic Trick Revealed", "YbJOTdZBX1g", "https://i.ytimg.com/vi/YbJOTdZBX1g/hqdefault.jpg", "Magic Show"),
   ("Cute Puppy Reaction", "2Vv-BfVoq4g", "https://i.ytimg.com/vi/2Vv-BfVoq4g/hqdefault.jpg", "Pet Channel")]

/-- `_get_mock_shorts_results`. -/
def mockShortsResults (query : String) : List Item :=
  mockShortsVideos.map fun t =>
    { id := t.2.1
      title := t.1
      description := "Viral " ++ query ++ " content"
      thumbnail := t.2.2.1
      channel := t.2.2.2
      published_at := "2024-01-15T12:00:00Z"
      platform := "tiktok"
      url := "https://www.youtube.com/watch?v=" ++ t.2.1 }

/-- The keyed `(title, video_id, thumbnail)` buckets of
`_get_mock_movie_results`, in dict insertion order. -/
def mockMovieBuckets : List (String × List (String × String × String)) :=
  [("avengers",
    [("Iron Man Official Trailer", "8ugaeA-nMTc", "https://i.ytimg.com/vi/8ugaeA-nMTc/hqdefault.jpg"),
     ("Captain America: Winter Soldier Trailer", "7SlILk2WMTI", "https://i.ytimg.com/vi/7SlILk2WMTI/hqdefault.jpg"),
     ("Thor Official Trailer", "JOddp-nlNvQ", "https://i.ytimg.com/vi/JOddp-nlNvQ/hqdefault.jpg"),
     ("Guardians of the Galaxy Trailer", "d96cjJhvlMA", "https://i.ytimg.com/vi/d96cjJhvlMA/hqdefault.jpg"),
     ("Black Panther Official Trailer", "xjDjIWPwcPU", "https://i.ytimg.com/vi/xjDjIWPwcPU/hqdefault.jpg"),
     ("Doctor Strange Trailer", "HSzx-zryEgM", "https://i.ytimg.com/vi/HSzx-zryEgM/hqdefault.jpg")]),
   ("inception",
    [("Interstellar Trailer", "zSWdZVtXT7E", "https://i.ytimg.com/vi/zSWdZVtXT7E/hqdefault.jpg"),
     ("Shutter Island Trailer", "5iaYLCiq5RM", "https://i.ytimg.com/vi/5iaYLCiq5RM/hqdefault.jpg"),
     ("The Prestige Trailer", "o4gHCmTQDVI", "https://i.ytimg.com/vi/o4gHCmTQDVI/hqdefault.jpg"),
     ("Memento Trailer", "HDWylEQSwFo", "https://i.ytimg.com/vi/HDWylEQSwFo/hqdefault.jpg"),
     ("Tenet Trailer", "AZGcmvrTX9M", "https://i.ytimg.com/vi/AZGcmvrTX9M/hqdefault.jpg"),
     ("The Matrix Trailer", "m8e-FF8MsqU", "https://i.ytimg.com/vi/m8e-FF8MsqU/hqdefault.jpg")]),
   ("spider-man",
    [("Spider-Man: No Way Home", "JfVOs4VSpmA", "https://i.ytimg.com/vi/JfVOs4VSpmA/hqdefault.jpg"),
     ("Spider-Man: Into the Spider-Verse", "g4Hbz2jLxvQ", "https://i.ytimg.com/vi/g4Hbz2jLxvQ/hqdefault.jpg"),
     ("The Amazing Spider-Man", "DyLUwOcR5pk", "https://i.ytimg.com/vi/DyLUwOcR5pk/hqdefault.jpg"),
     ("Spider-Man: Homecoming", "rk-dF1lIbIg", "https://i.ytimg.com/vi/rk-dF1lIbIg/hqdefault.jpg"),
     ("Spider-Man: Far From Home", "Nt9L1jCKGnE", "https://i.ytimg.com/vi/Nt9L1jCKGnE/hqdefault.jpg"),
     ("Venom", "u9Mv98Gr5pY", "https://i.ytimg.com/vi/u9Mv98Gr5pY/hqdefault.jpg")]),
   ("batman",
    [("The Batman Trailer", "mqqft2x_Aa4", "https://i.ytimg.com/vi/mqqft2x_Aa4/hqdefault.jpg"),
     ("The Dark Knight Trailer", "EXeTwQWrcwY", "https://i.ytimg.com/vi/EXeTwQWrcwY/hqdefault.jpg"),
     ("Batman Begins Trailer", "neY2xVmOfUM", "https://i.ytimg.com/vi/neY2xVmOfUM/hqdefault.jpg"),
     ("Joker Trailer", "zAGVQLHvwOY", "https://i.ytimg.com/vi/zAGVQLHvwOY/hqdefault.jpg"),
     ("Justice League Trailer", "3cxixDgHUYw", "https://i.ytimg.com/vi/3cxixDgHUYw/hqdefault.jpg"),
     ("Superman Man of Steel", "T6DJcgm3wNY", "https://i.ytimg.com/vi/T6DJcgm3wNY/hqdefault.jpg")])]

/-- The default bucket of `_get_mock_movie_results` (unmatched queries). -/
def mockMovieDefault : List (String × String × String) :=
  [("Dune: Part Two Trailer", "Way9Dexny3w", "https://i.ytimg.com/vi/Way9Dexny3w/hqdefault.jpg"),
   ("Oppenheimer Trailer", "uYPbbksJxIg", "https://i.ytimg.com/vi/uYPbbksJxIg/hqdefault.jpg"),
   ("Barbie Trailer", "pBk4NYhWNMM", "https://i.ytimg.com/vi/pBk4NYhWNMM/hqdefault.jpg"),
   ("Deadpool & Wolverine", "73_1biulkYk", "https://i.ytimg.com/vi/73_1biulkYk/hqdefault.jpg"),
   ("The Marvels Trailer", "wS_qbDztgVY", "https://i.ytimg.com/vi/wS_qbDztgVY/hqdefault.jpg"),
   ("Top Gun: Maverick", "giXco2jaZ_4", "https://i.ytimg.com/vi/giXco2jaZ_4/hqdefault.jpg")]

/-- Bucket selection of `_get_mock_movie_results`: exact key match,
else first key related to the query by substring containment (either
direction), else the default bucket. -/
def mockMovieSelect (queryLower : String) : List (String × String × String) :=
  match mockMovieBuckets.find? (fun kv => kv.1 == queryLower) with
  | some kv => kv.2
  | none =>
    match mockMovieBuckets.find? (fun kv => strIn kv.1 queryLower || strIn queryLower kv.1) with
    | some kv => kv.2
    | none => mockMovieDefault

/-- `_get_mock_movie_results`. -/
def mockMovieResults (query category : String) : List Item :=
  (mockMovieSelect (strToLower query)).map fun t =>
    { id := t.2.1
      title := t.1
      description := "Watch the official trailer"
      thumbnail := t.2.2
      channel := "Official Movie Trailers"
      published_at := "2024-01-10T12:00:00Z"
      platform := category
      url := "https://www.youtube.com/watch?v=" ++ t.2.1 }

/-! ### YouTube-side operations -/

/-- `_transform_youtube_item`: `None` when the raw item has no
`videoId`. -/
def transformYoutubeItem (it : YtItem) : Option Item :=
  match it.videoId with
  | none => none
  | some v =>
    some { id := v
           title := it.title
           description := it.description
           thumbnail := it.thumbnail
           channel := it.channel
           published_at := it.publishedAt
           platform := "youtube"
           url := "https://www.youtube.com/watch?v=" ++ v }

/-- The `params` dict of `_get_youtube_recommendations`. -/
def ytRecParams (env : Env) (searchQuery region : String) : YtParams :=
  { q := searchQuery, region := region,
    maxResults := env.settings.max_results_per_query, order := some "relevance" }

/-- `_get_youtube_recommendations`: a single search; the mock catalog
on exception, error payload, or empty transformed results. -/
def getYoutubeRecommendations (env : Env) (searchQuery region : String) : List Item :=
  match env.ytSearch (ytRecParams env searchQuery region) with
  | none => mockYoutubeResults searchQuery
  | some resp =>
    if resp.hasError then mockYoutubeResults searchQuery
    else
      let results := resp.items.filterMap transformYoutubeItem
      if results.isEmpty then mockYoutubeResults searchQuery else results

/-- The two search-strategy variants of
`_get_tiktok_style_recommendations`. -/
def tiktokVariants (searchQuery : String) : List String :=
  [searchQuery ++ " tiktok viral", searchQuery ++ " #shorts"]

/-- First-occurrence deduplication by id (the `seen_ids` comprehension
in `_get_tiktok_style_recommendations`). -/
def dedupById (seen : List String) : List Item → List Item
  | [] => []
  | r :: rs =>
    if r.id ∈ seen then dedupById seen rs
    else r :: dedupById (r.id :: seen) rs

/-- The per-variant `params` dict of `_get_tiktok_style_recommendations`. -/
def tiktokParams (variant region : String) : YtParams :=
  { q := variant, region := region, maxResults := 10,
    videoDuration := some "short", order := some "viewCount" }

/-- `_get_tiktok_style_recommendations`: two search variants (failures
skipped), platform retagged to "tiktok", dedup by id, first 15; the
mock shorts when nothing was found. -/
def getTiktokRecommendations (env : Env) (searchQuery region : String) : List Item :=
  let results := (tiktokVariants searchQuery).flatMap fun v =>
    match env.ytSearch (tiktokParams v region) with
    | none => []
    | some resp =>
      resp.items.filterMap fun it =>
        (transformYoutubeItem it).map fun item => { item with platform := "tiktok" }
  let unique := dedupById [] results
  if unique.isEmpty then mockShortsResults searchQuery else unique.take 15

/-- The `params` dict of `_search_youtube_content`. -/
def contentParams (query region : String) (limit : Nat) : YtParams :=
  { q := query, region := region, maxResults := limit }

/-- `_search_youtube_content`: the plain YouTube search used as the
structured-media fallback; empty on failure. -/
def searchYoutubeContent (env : Env) (query region : String) (limit : Nat) : List Item :=
  match env.ytSearch (contentParams query region limit) with
  | none => []
  | some resp => resp.items.filterMap transformYoutubeItem

/-! ### TMDB-side operations -/

/-- Poster URL building (the `poster_path` truthiness pattern used at
each TMDB call site). -/
def posterUrlOf (posterPath : Option String) : String :=
  if truthyS posterPath then
    "https://image.tmdb.org/t/p/w500" ++ posterPath.getD ""
  else "https://via.placeholder.com/500x750/831010/ffffff?text=No+Poster"

/-- `media_type = "movie" if category == "movies" else "tv"`. -/
def mediaTypeOf (category : String) : MediaType :=
  if category == "movies" then .movie else .tv

/-- `_search_tmdb`: the first result of a TMDB search, `none` on
exception or when the result list is empty/absent. -/
def searchTmdb (env : Env) (query : String) (mt : MediaType) : Option CandItem :=
  match env.tmdbSearch query mt with
  | none => none
  | some [] => none
  | some (r :: _) =>
    some { id := r.id, title := r.title, overview := r.overview,
           posterUrl := posterUrlOf r.posterPath,
           releaseDate := r.releaseDate, popularity := r.popularity }

/-- `_get_tmdb_similar`: first 30 raw results, popularity > 10 only,
stable-sorted by popularity descending, first 20; empty on exception. -/
def getTmdbSimilar (env : Env) (mediaId : Nat) (mt : MediaType) : List CandItem :=
  match env.tmdbSimilar mediaId mt with
  | none => []
  | some results =>
    let similarItems := (results.take 30).filterMap fun it =>
      if it.popularity > 10 then
        some { id := it.id, title := it.title, overview := it.overview,
               posterUrl := posterUrlOf it.posterPath,
               releaseDate := it.releaseDate, popularity := it.popularity }
      else (none : Option CandItem)
    (sortDescBy (fun x => x.popularity) similarItems).take 20

/-- The genre-name → TMDB-genre-id dictionary of `_get_genre_ids`. -/
def genreMapping (name : String) : Option Nat :=
  if name == "Action" then some 28 else if name == "Adventure" then some 12
  else if name == "Animation" then some 16 else if name == "Comedy" then some 35
  else if name == "Crime" then some 80 else if name == "Documentary" then some 99
  else if name == "Drama" then some 18 else if name == "Family" then some 10751
  else if name == "Fantasy" then some 14 else if name == "History" then some 36
  else if name == "Horror" then some 27 else if name == "Music" then some 10402
  else if name == "Mystery" then some 9648 else if name == "Romance" then some 10749
  else if name == "Science Fiction" then some 878 else if name == "TV Movie" then some 10770
  else if name == "Thriller" then some 53 else if name == "War" then some 10752
  else if name == "Western" then some 37 else none

/-- `_get_genre_ids`: names translated through the dictionary, unknown
names dropped. -/
def genreIds (genreNames : List String) : List Nat :=
  genreNames.filterMap genreMapping

/-- Python dict assignment `d[k] = v` on an insertion-ordered list:
replace in place when the key exists, else append. -/
def insertKeyed (acc : List CandItem) (it : CandItem) : List CandItem :=
  if acc.any (fun c => c.id == it.id) then
    acc.map fun c => if c.id == it.id then it else c
  else acc ++ [it]

/-- A discover-strategy raw result turned into a candidate dict. -/
def mkDiscoverCand (it : TmdbRaw) : CandItem :=
  { id := it.id, title := it.title, overview := it.overview,
    posterUrl := posterUrlOf it.posterPath,
    releaseDate := it.releaseDate, popularity := it.popularity }

/-- One iteration of the genre-discovery loop in
`_get_tmdb_recommendations_multi_strategy`: insert the raw result
unless its id is already present, is the seed id, or its popularity
is ≤ 10. -/
def discoverStep (mediaId : Nat) (acc : List CandItem) (it : TmdbRaw) : List CandItem :=
  if acc.all (fun c => !(c.id == it.id)) && !(it.id == mediaId)
      && decide (it.popularity > 10) then
    acc ++ [mkDiscoverCand it]
  else acc

/-- `_get_tmdb_recommendations_multi_strategy`: similar-items results
inserted first, then genre discovery (first 15 raw results, skipping
already-present ids, the seed id, and popularity ≤ 10); first 30 of
the insertion-ordered candidate dict. -/
def multiStrategy (env : Env) (mediaId : Nat) (mt : MediaType) (sourceDetails : Details) :
    List CandItem :=
  let cands1 := (getTmdbSimilar env mediaId mt).foldl insertKeyed []
  let cands2 :=
    if sourceDetails.genres.isEmpty then cands1
    else
      match env.tmdbDiscover (genreIds sourceDetails.genres) mt with
      | none => cands1
      | some results => (results.take 15).foldl (discoverStep mediaId) cands1
  cands2.take 30

/-- Size of the Python set intersection `len(set(a) & set(b))`. -/
def overlapCount (a b : List String) : Nat :=
  (a.dedup.filter fun x => b.contains x).length

/-- The similarity score of `_score_recommendations`, accumulated
factor by factor exactly as in the code. -/
def scorePair (s d : Details) : ℚ :=
  let score : ℚ := 0
  let score := if truthyS s.collection && truthyS d.collection
                  && (s.collection == d.collection) then score + 50 else score
  let score := if truthyS s.director && truthyS d.director
                  && (s.director == d.director) then score + 30 else score
  let score := score + ((min (overlapCount s.cast d.cast * 5) 25 : ℕ) : ℚ)
  let score := score + ((min (overlapCount s.genres d.genres * 10) 20 : ℕ) : ℚ)
  let score := score + ((min (overlapCount s.keywords d.keywords * 2) 15 : ℕ) : ℚ)
  let score := score + min ((overlapCount s.companies d.companies : ℚ) * (15/2)) 15
  let score := if s.budget > 0 && d.budget > 0
                  && decide ((min s.budget d.budget : ℚ) / (max s.budget d.budget : ℚ) > 1/2)
               then score + 10 else score
  let score := if s.runtime > 0 && d.runtime > 0 && decide (|s.runtime - d.runtime| < 30)
               then score + 5 else score
  let score := if s.rating > 0 && d.rating > 0 && decide (|s.rating - d.rating| < 3/2)
               then score + 5 else score
  let score :=
    match pyInt? s.release_year, pyInt? d.release_year with
    | some a, some b => if |a - b| ≤ 5 then score + 5 else score
    | _, _ => score
  score

/-- Per-candidate step of `_score_recommendations`: the seed itself and
candidates whose details cannot be fetched yield no entry. -/
def scoreEntry (env : Env) (s : Details) (mt : MediaType) (c : CandItem) :
    Option (CandItem × ℚ) :=
  if c.id == s.id then none
  else
    match env.tmdbDetails c.id mt with
    | none => none
    | some d => some (c, scorePair s d)

/-- `_score_recommendations`: score each candidate against the source
details and stable-sort descending by score. -/
def scoreRecs (env : Env) (s : Details) (candidates : List CandItem) (mt : MediaType) :
    List (CandItem × ℚ) :=
  sortDescBy (fun p => p.2) (candidates.filterMap (scoreEntry env s mt))

/-- The `provider_mapping` dict of `_get_tmdb_watch_providers`. -/
def providerMapping (pid : Nat) : Option String :=
  if pid == 8 then some "netflix" else if pid == 9 then some "prime"
  else if pid == 337 then some "disney" else if pid == 15 then some "hulu"
  else if pid == 384 then some "hbo" else if pid == 350 then some "apple"
  else if pid == 386 then some "peacock" else none

/-- `_get_tmdb_title`: "Unknown" on exception or missing title. -/
def getTmdbTitle (env : Env) (mediaId : Nat) (mt : MediaType) : String :=
  (env.tmdbTitle mediaId mt).getD "Unknown"

/-- `_construct_platform_url`. -/
def constructPlatformUrl (env : Env) (platform : String) (title : String) : String :=
  let cleanTitle := env.quote title
  if platform == "netflix" then "https://www.netflix.com/browse"
  else if platform == "prime" then "https://www.amazon.com/s?k=" ++ cleanTitle ++ "&i=instant-video"
  else if platform == "disney" then "https://www.disneyplus.com/"
  else if platform == "hulu" then "https://www.hulu.com/hub/home"
  else if platform == "hbo" then "https://www.max.com/"
  else if platform == "apple" then "https://tv.apple.com/"
  else if platform == "peacock" then "https://www.peacocktv.com/"
  else "https://www.amazon.com/s?k=" ++ cleanTitle ++ "&i=instant-video"

/-- `_get_tmdb_watch_providers`: mapped flatrate providers, else the
first 3 mapped buy providers; empty on exception. -/
def getTmdbWatchProviders (env : Env) (mediaId : Nat) (mt : MediaType) : List Platform :=
  match env.tmdbProviders mediaId mt with
  | none => []
  | some pd =>
    let title := getTmdbTitle env mediaId mt
    let flat := pd.flatrate.filterMap fun pid =>
      (providerMapping pid).map fun pl =>
        ({ platform := pl, url := constructPlatformUrl env pl title } : Platform)
    if flat.isEmpty then
      (pd.buy.take 3).filterMap fun pid =>
        (providerMapping pid).map fun pl =>
          ({ platform := pl, url := constructPlatformUrl env pl title } : Platform)
    else flat

/-- The fixed `platform_priority` list of `_find_similar_shows`. -/
def platformPriority : List String :=
  ["netflix", "disney", "prime", "hulu", "hbo", "apple", "peacock"]

/-- The primary-platform selection loop of `_find_similar_shows`,
verbatim: for each priority entry, take the first platform matching it
(else keep the current primary), then stop as soon as the *current*
primary belongs to the priority list. -/
def primaryLoop : List String → Platform → List Platform → Platform
  | [], primary, _ => primary
  | pr :: prs, primary, platforms =>
    let primary1 :=
      match platforms.find? (fun p => p.platform == pr) with
      | some p => p
      | none => primary
    if platformPriority.contains primary1.platform then primary1
    else primaryLoop prs primary1 platforms

/-- Primary platform of a non-empty availability list
(`primary_platform = platforms[0]` then the priority loop). -/
def primaryPlatform (first : Platform) (platforms : List Platform) : Platform :=
  primaryLoop platformPriority first platforms

/-- Python's `round(x, 1)` (round-half-to-even at one decimal). -/
def round1 (x : ℚ) : ℚ :=
  let y := x * 10
  let q := ⌊y⌋
  let r :=
    if y - q > 1/2 then q + 1
    else if y - q < 1/2 then q
    else if q % 2 = 0 then q else q + 1
  (r : ℚ) / 10

/-- The result card built for one candidate with a resolved primary
platform in step 5 of `_find_similar_shows`. -/
def mkShowItem (env : Env) (mt : MediaType) (c : CandItem) (platforms : List Platform)
    (primary : Platform) : Item :=
  let det := env.tmdbDetails c.id mt
  { id := natToStr c.id
    title := c.title
    description := c.overview.take 200
    thumbnail := c.posterUrl
    channel := strToUpper primary.platform
    published_at := c.releaseDate
    platform := primary.platform
    url := primary.url
    allPlatforms := some (platforms.map Platform.platform)
    rating := some (round1 (match det with | some d => d.rating | none => 0))
    year := some (match det with | some d => d.release_year | none => "") }

/-- Step 5 of `_find_similar_shows`: walk the scored candidates,
emitting a card only when at least one platform resolves, stopping
after each iteration once 15 cards exist. -/
def availLoop (env : Env) (mt : MediaType) : List (CandItem × ℚ) → List Item → List Item
  | [], acc => acc
  | (c, _) :: rest, acc =>
    let acc1 :=
      match getTmdbWatchProviders env c.id mt with
      | [] => acc
      | p :: ps => acc ++ [mkShowItem env mt c (p :: ps) (primaryPlatform p (p :: ps))]
    if acc1.length ≥ 15 then acc1 else availLoop env mt rest acc1

/-- `_find_similar_shows`: the 5-stage structured pipeline, falling
back to a plain YouTube search when the seed cannot be resolved or
detailed. -/
def findSimilarShows (env : Env) (searchQuery category : String) : List Item :=
  let mt := mediaTypeOf category
  match searchTmdb env searchQuery mt with
  | none => searchYoutubeContent env (category ++ " similar to " ++ searchQuery) "US" 5
  | some searchResult =>
    match env.tmdbDetails searchResult.id mt with
    | none => searchYoutubeContent env (category ++ " similar to " ++ searchQuery) "US" 5
    | some sourceDetails =>
      let candidateItems := multiStrategy env searchResult.id mt sourceDetails
      let scoredItems := scoreRecs env sourceDetails candidateItems mt
      availLoop env mt (scoredItems.take 30) []

set_option linter.unusedVariables false in
/-- `_get_movie_recommendations`: first 15 pipeline results, else the
mock movie catalog (`region` is accepted and ignored, as in the code). -/
def getMovieRecommendations (env : Env) (searchQuery region category : String) : List Item :=
  let similarShows := findSimilarShows env searchQuery category
  if similarShows.isEmpty then mockMovieResults searchQuery category
  else similarShows.take 15

/-! ### Ranking/diversity pass and the cached entry point -/

/-- The recency part of `_score_and_rank`'s per-item score: zero when
the timestamp cannot be parsed (the `except: pass`). -/
def recencyScore (env : Env) (publishedAt : String) : ℚ :=
  match env.daysOld publishedAt with
  | some d => max 0 (1 - (d : ℚ) / 365) * (7/10)
  | none => 0

/-- `_score_and_rank`: recency (weight 0.7) plus one random draw per
item (weight 0.3), stable sort descending, internal scores dropped. -/
def scoreAndRank (env : Env) (results : List Item) : List Item :=
  if results.isEmpty then []
  else
    let withScores := results.enum.map fun p =>
      (p.2, recencyScore env p.2.published_at + env.rand p.1 * (3/10))
    (sortDescBy (fun q => q.2) withScores).map fun q => q.1

/-- The result cache, an association list keyed by the composite cache
key; presence of an entry models "within TTL". -/
abbrev Cache := List (String × List Item)

/-- Cache lookup (`cache_key in recommendation_cache` / `[...]`). -/
def cacheLookup (cache : Cache) (k : String) : Option (List Item) :=
  (cache.find? fun kv => kv.1 == k).map fun kv => kv.2

/-- Cache write-back (`recommendation_cache[cache_key] = ...`). -/
def cacheInsert (cache : Cache) (k : String) (v : List Item) : Cache :=
  (k, v) :: cache

/-- `f"{category}:{search_query}:{region}"`. -/
def mkCacheKey (category searchQuery region : String) : String :=
  category ++ ":" ++ searchQuery ++ ":" ++ region

/-- The category dispatch of `get_recommendations` (the `if/elif`
chain run on a cache miss). -/
def dispatchCategory (env : Env) (category searchQuery region : String) : List Item :=
  if category == "youtube" then getYoutubeRecommendations env searchQuery region
  else if category == "tiktok" then getTiktokRecommendations env searchQuery region
  else if category == "movies" || category == "tv" then
    getMovieRecommendations env searchQuery region category
  else []

/-- `get_recommendations`: serve a hit from the cache sliced to
`limit`; on a miss dispatch, rank, write the full list back and slice.
Returns the response list and the updated cache. -/
def getRecommendations (env : Env) (cache : Cache) (category searchQuery region : String)
    (limit : Nat) : List Item × Cache :=
  let cacheKey := mkCacheKey category searchQuery region
  match cacheLookup cache cacheKey with
  | some v => (v.take limit, cache)
  | none =>
    let results := dispatchCategory env category searchQuery region
    let scoredResults := scoreAndRank env results
    (scoredResults.take limit, cacheInsert cache cacheKey scoredResults)

/-! ### Cache construction parameters (module scope of `services.py`
and `config.py`) -/

/-- The `maxsize` argument passed to `TTLCache` at
`services.py:17` — the literal 1000, whatever the settings are. -/
def recommendationCacheMaxsize (_s : Settings) : Nat := 1000

/-- The `ttl` argument passed to `TTLCache` at `services.py:17` —
`settings.cache_ttl`. -/
def recommendationCacheTtl (s : Settings) : Nat := s.cache_ttl

/-- A cache parameter is externally configured when some change of the
settings changes it. -/
def configDependent (f : Settings → Nat) : Prop :=
  ∃ s1 s2 : Settings, f s1 ≠ f s2

/-! ### Concrete environments used to instantiate the theorems -/

/-- A settings record with the config defaults. -/
def settings0 : Settings :=
  { youtube_api_key := "", tmdb_api_key := "" }

/-- The environment in which every upstream catalog call fails. -/
def envAllFail : Env :=
  { settings := settings0
    ytSearch := fun _ => none
    tmdbSearch := fun _ _ => none
    tmdbDetails := fun _ _ => none
    tmdbSimilar := fun _ _ => none
    tmdbDiscover := fun _ _ => none
    tmdbProviders := fun _ _ => none
    tmdbTitle := fun _ _ => none
    daysOld := fun _ => none
    rand := fun _ => 0
    quote := fun s => s }

/-- Every upstream catalog field of the environment fails; the clock,
the random generator and `quote` are unconstrained. -/
def allCatalogsFail (env : Env) : Prop :=
  (∀ p, env.ytSearch p = none) ∧
  (∀ q mt, env.tmdbSearch q mt = none) ∧
  (∀ i mt, env.tmdbDetails i mt = none) ∧
  (∀ i mt, env.tmdbSimilar i mt = none) ∧
  (∀ g mt, env.tmdbDiscover g mt = none) ∧
  (∀ i mt, env.tmdbProviders i mt = none) ∧
  (∀ i mt, env.tmdbTitle i mt = none)

/-! ### C9 — cache TTL and capacity configuration -/

/-- C9, counterexample: the cache's maximum entry count is NOT taken
from external configuration — `TTLCache(maxsize=1000, ...)` passes the
literal 1000, and no settings field can change it. -/
theorem c9_maxsize_not_configurable : ¬ configDependent recommendationCacheMaxsize := by
  rintro ⟨s1, s2, h⟩
  exact h rfl

/-- C9, amended: the cache TTL is externally configured
(`settings.cache_ttl`), but the maximum entry count is the hardcoded
literal 1000. -/
theorem c9_ttl_configured_maxsize_hardcoded :
    configDependent recommendationCacheTtl ∧
      ∀ s : Settings, recommendationCacheMaxsize s = 1000 := by
  constructor
  · exact ⟨{ youtube_api_key := "", tmdb_api_key := "", cache_ttl := 180 },
           { youtube_api_key := "", tmdb_api_key := "", cache_ttl := 200 },
           by decide⟩
  · intro s
    rfl

/-! ### C10 — unknown categories yield the empty list -/

/-- C10: on a cache miss, a category outside
{youtube, tiktok, movies, tv} produces the empty list. -/
theorem c10_unknown_category_empty (env : Env) (cache : Cache)
    (category searchQuery region : String) (limit : Nat)
    (hcat : category ∉ (["youtube", "tiktok", "movies", "tv"] : List String))
    (hmiss : cacheLookup cache (mkCacheKey category searchQuery region) = none) :
    (getRecommendations env cache category searchQuery region limit).1 = [] := by
  simp only [List.mem_cons, List.not_mem_nil, or_false, not_or] at hcat
  obtain ⟨h1, h2, h3, h4⟩ := hcat
  simp [getRecommendations, hmiss, dispatchCategory, scoreAndRank,
        beq_eq_false_iff_ne.mpr h1, beq_eq_false_iff_ne.mpr h2,
        beq_eq_false_iff_ne.mpr h3, beq_eq_false_iff_ne.mpr h4]

/-- C10 witness: the category "music" with an empty cache. -/
theorem c10_witness :
    "music" ∉ (["youtube", "tiktok", "movies", "tv"] : List String) ∧
      (getRecommendations envAllFail [] "music" "dogs" "US" 20).1 = [] :=
  ⟨by decide,
   c10_unknown_category_empty envAllFail [] "music" "dogs" "US" 20 (by decide) rfl⟩

/-! ### C6 — idempotence within the TTL -/

theorem cacheLookup_insert (cache : Cache) (k : String) (v : List Item) :
    cacheLookup (cacheInsert cache k v) k = some v := by
  simp [cacheLookup, cacheInsert]

/-- C6: two consecutive calls with identical arguments, the second
made while the first call's cache entry is still live, return the same
ordered list — regardless of how the environment (upstreams, clock,
randomness) changed in between. -/
theorem c6_second_call_identical (env1 env2 : Env) (cache : Cache)
    (category searchQuery region : String) (limit : Nat) :
    (getRecommendations env2
        (getRecommendations env1 cache category searchQuery region limit).2
        category searchQuery region limit).1 =
      (getRecommendations env1 cache category searchQuery region limit).1 := by
  cases h : cacheLookup cache (mkCacheKey category searchQuery region) with
  | some v => simp [getRecommendations, h]
  | none => simp [getRecommendations, h, cacheLookup_insert]

/-! ### C7 — hit slices the stored list, miss writes back the full list -/

/-- C7: a cache hit returns the stored full list sliced to the limit
and leaves the cache untouched; a miss runs the pipeline, writes the
unsliced ranked list back and returns its slice. -/
theorem c7_hit_slices_miss_writes (env : Env) (cache : Cache)
    (category searchQuery region : String) (limit : Nat) :
    (∀ v, cacheLookup cache (mkCacheKey category searchQuery region) = some v →
        getRecommendations env cache category searchQuery region limit =
          (v.take limit, cache)) ∧
    (cacheLookup cache (mkCacheKey category searchQuery region) = none →
        getRecommendations env cache category searchQuery region limit =
          ((scoreAndRank env (dispatchCategory env category searchQuery region)).take limit,
            cacheInsert cache (mkCacheKey category searchQuery region)
              (scoreAndRank env (dispatchCategory env category searchQuery region)))) := by
  constructor
  · intro v hv
    simp [getRecommendations, hv]
  · intro hv
    simp [getRecommendations, hv]

/-- A stored full result list of 20 items for ("movies","inception","US"). -/
def inceptionStored : List Item :=
  (List.range 20).map fun i =>
    { id := natToStr i, title := "Stored " ++ natToStr i, description := ""
      thumbnail := "", channel := "", published_at := "2024-01-01T00:00:00Z"
      platform := "movies", url := "" }

/-- A cache holding those 20 items under the inception key. -/
def cacheInception : Cache :=
  [("movies:inception:US", inceptionStored)]

/-- C7 witness: with 20 stored items and limit 5, the response is
exactly elements 0..4 of the stored list and the cache is unchanged. -/
theorem c7_witness :
    getRecommendations envAllFail cacheInception "movies" "inception" "US" 5 =
      (inceptionStored.take 5, cacheInception) :=
  (c7_hit_slices_miss_writes envAllFail cacheInception "movies" "inception" "US" 5).1
    inceptionStored rfl

/-! ### C4 — primary-platform selection

The code's own comment (`# Prioritize platforms: Netflix > Disney+ >
Prime > Hulu > HBO > Others`) and the spec both describe a pure
priority search.  The implemented loop instead stops as soon as the
*current* primary — initialized to `platforms[0]` — happens to belong
to the priority list, so a lower-priority first entry shadows every
higher-priority platform except netflix. -/

/-- Primary-platform selection as the spec (§4.4) words it: the first
platform of the fixed priority order occurring anywhere in the list;
if none occurs, the first available platform. -/
def primaryPlatformSpec (platforms : List Platform) : Option Platform :=
  match platformPriority.find? (fun pr => platforms.any fun p => p.platform == pr) with
  | some pr => platforms.find? fun p => p.platform == pr
  | none => platforms.head?

/-- A candidate available on hulu (listed first) and disney. -/
def huluEntry : Platform := { platform := "hulu", url := "https://www.hulu.com/hub/home" }

/-- The disney availability entry of the same candidate. -/
def disneyEntry : Platform := { platform := "disney", url := "https://www.disneyplus.com/" }

/-- C4: on the availability list [hulu, disney] the code selects hulu,
while the fixed priority order (and the code's own comment) requires
disney — the break condition fires because the initial primary
`platforms[0]` is itself a priority platform. -/
theorem c4_priority_shadowed :
    primaryPlatform huluEntry [huluEntry, disneyEntry] = huluEntry ∧
      primaryPlatformSpec [huluEntry, disneyEntry] = some disneyEntry := by
  constructor
  · rfl
  · rfl

/-! ### C5 — the similarity score is the sum of ten capped factors -/

/-- Spec §4.3 row 1: shared franchise/collection, 50 points. -/
def franchiseFactor (s d : Details) : ℚ :=
  if truthyS s.collection && truthyS d.collection && (s.collection == d.collection)
  then 50 else 0

/-- Spec §4.3 row 2: shared director, 30 points. -/
def directorFactor (s d : Details) : ℚ :=
  if truthyS s.director && truthyS d.director && (s.director == d.director)
  then 30 else 0

/-- Spec §4.3 row 3: cast overlap, min(5·overlap, 25). -/
def castFactor (s d : Details) : ℚ :=
  ((min (overlapCount s.cast d.cast * 5) 25 : ℕ) : ℚ)

/-- Spec §4.3 row 4: genre overlap, min(10·overlap, 20). -/
def genreFactor (s d : Details) : ℚ :=
  ((min (overlapCount s.genres d.genres * 10) 20 : ℕ) : ℚ)

/-- Spec §4.3 row 5: keyword overlap, min(2·overlap, 15). -/
def keywordFactor (s d : Details) : ℚ :=
  ((min (overlapCount s.keywords d.keywords * 2) 15 : ℕ) : ℚ)

/-- Spec §4.3 row 6: shared production entity, min(7.5·overlap, 15). -/
def productionFactor (s d : Details) : ℚ :=
  min ((overlapCount s.companies d.companies : ℚ) * (15/2)) 15

/-- Spec §4.3 row 7: budget-tier proximity, 10 points. -/
def budgetFactor (s d : Details) : ℚ :=
  if s.budget > 0 && d.budget > 0
      && decide ((min s.budget d.budget : ℚ) / (max s.budget d.budget : ℚ) > 1/2)
  then 10 else 0

/-- Spec §4.3 row 8: runtime proximity (|Δ| < 30 minutes), 5 points. -/
def runtimeFactor (s d : Details) : ℚ :=
  if s.runtime > 0 && d.runtime > 0 && decide (|s.runtime - d.runtime| < 30)
  then 5 else 0

/-- Spec §4.3 row 9: rating proximity (|Δ| < 1.5), 5 points. -/
def ratingFactor (s d : Details) : ℚ :=
  if s.rating > 0 && d.rating > 0 && decide (|s.rating - d.rating| < 3/2)
  then 5 else 0

/-- Spec §4.3 row 10: release-year proximity (both parse, |Δ| ≤ 5),
5 points. -/
def yearFactor (s d : Details) : ℚ :=
  match pyInt? s.release_year, pyInt? d.release_year with
  | some a, some b => if |a - b| ≤ 5 then 5 else 0
  | _, _ => 0

theorem ite_shift (c : Prop) [Decidable c] (x k : ℚ) :
    (if c then x + k else x) = x + (if c then k else 0) := by
  split <;> simp

theorem scorePair_eq_sum (s d : Details) :
    scorePair s d =
      franchiseFactor s d + directorFactor s d + castFactor s d + genreFactor s d
        + keywordFactor s d + productionFactor s d + budgetFactor s d
        + runtimeFactor s d + ratingFactor s d + yearFactor s d := by
  unfold scorePair franchiseFactor directorFactor castFactor genreFactor keywordFactor
    productionFactor budgetFactor runtimeFactor ratingFactor yearFactor
  rcases pyInt? s.release_year with _ | a <;> rcases pyInt? d.release_year with _ | b <;>
    simp only [ite_shift] <;> ring

theorem factor_bounds_ite (c : Prop) [Decidable c] (k : ℚ) (hk : 0 ≤ k) :
    0 ≤ (if c then k else 0) ∧ (if c then k else 0) ≤ k := by
  split <;> constructor <;> linarith

theorem franchiseFactor_bounds (s d : Details) :
    0 ≤ franchiseFactor s d ∧ franchiseFactor s d ≤ 50 := by
  unfold franchiseFactor
  split <;> norm_num

theorem directorFactor_bounds (s d : Details) :
    0 ≤ directorFactor s d ∧ directorFactor s d ≤ 30 := by
  unfold directorFactor
  split <;> norm_num

theorem budgetFactor_bounds (s d : Details) :
    0 ≤ budgetFactor s d ∧ budgetFactor s d ≤ 10 := by
  unfold budgetFactor
  split <;> norm_num

theorem runtimeFactor_bounds (s d : Details) :
    0 ≤ runtimeFactor s d ∧ runtimeFactor s d ≤ 5 := by
  unfold runtimeFactor
  split <;> norm_num

theorem ratingFactor_bounds (s d : Details) :
    0 ≤ ratingFactor s d ∧ ratingFactor s d ≤ 5 := by
  unfold ratingFactor
  split <;> norm_num

theorem castFactor_bounds (s d : Details) : 0 ≤ castFactor s d ∧ castFactor s d ≤ 25 := by
  unfold castFactor
  constructor
  · positivity
  · exact_mod_cast Nat.cast_le.mpr (min_le_right _ 25)

theorem genreFactor_bounds (s d : Details) : 0 ≤ genreFactor s d ∧ genreFactor s d ≤ 20 := by
  unfold genreFactor
  constructor
  · positivity
  · exact_mod_cast Nat.cast_le.mpr (min_le_right _ 20)

theorem keywordFactor_bounds (s d : Details) :
    0 ≤ keywordFactor s d ∧ keywordFactor s d ≤ 15 := by
  unfold keywordFactor
  constructor
  · positivity
  · exact_mod_cast Nat.cast_le.mpr (min_le_right _ 15)

theorem productionFactor_bounds (s d : Details) :
    0 ≤ productionFactor s d ∧ productionFactor s d ≤ 15 := by
  unfold productionFactor
  constructor
  · exact le_min (by positivity) (by norm_num)
  · exact min_le_right _ _

theorem yearFactor_bounds (s d : Details) : 0 ≤ yearFactor s d ∧ yearFactor s d ≤ 5 := by
  unfold yearFactor
  rcases pyInt? s.release_year with _ | a <;> rcases pyInt? d.release_year with _ | b <;>
    first
      | exact ⟨le_refl 0, by norm_num⟩
      | exact factor_bounds_ite _ 5 (by norm_num)

/-- C5: the similarity score of `_score_recommendations` is exactly
the sum of the spec's ten capped factors, hence always in [0, 180];
and a candidate whose details cannot be fetched contributes no scored
entry at all. -/
theorem c5_score_is_capped_factor_sum :
    (∀ s d : Details,
        scorePair s d =
          franchiseFactor s d + directorFactor s d + castFactor s d + genreFactor s d
            + keywordFactor s d + productionFactor s d + budgetFactor s d
            + runtimeFactor s d + ratingFactor s d + yearFactor s d
          ∧ 0 ≤ scorePair s d ∧ scorePair s d ≤ 180) ∧
    (∀ (env : Env) (s : Details) (cands : List CandItem) (mt : MediaType)
        (c : CandItem) (sc : ℚ),
        env.tmdbDetails c.id mt = none → (c, sc) ∉ scoreRecs env s cands mt) := by
  constructor
  · intro s d
    have h1 := franchiseFactor_bounds s d
    have h2 := directorFactor_bounds s d
    have h3 := castFactor_bounds s d
    have h4 := genreFactor_bounds s d
    have h5 := keywordFactor_bounds s d
    have h6 := productionFactor_bounds s d
    have h7 := budgetFactor_bounds s d
    have h8 := runtimeFactor_bounds s d
    have h9 := ratingFactor_bounds s d
    have h10 := yearFactor_bounds s d
    refine ⟨scorePair_eq_sum s d, ?_, ?_⟩
    · rw [scorePair_eq_sum]
      linarith [h1.1, h2.1, h3.1, h4.1, h5.1, h6.1, h7.1, h8.1, h9.1, h10.1]
    · rw [scorePair_eq_sum]
      linarith [h1.2, h2.2, h3.2, h4.2, h5.2, h6.2, h7.2, h8.2, h9.2, h10.2]
  · intro env s cands mt c sc hnone hmem
    have h1 : (c, sc) ∈ cands.filterMap (scoreEntry env s mt) :=
      ((sortDescBy_perm _ _).mem_iff).mp hmem
    obtain ⟨a, _, he⟩ := List.mem_filterMap.mp h1
    unfold scoreEntry at he
    by_cases hid : (a.id == s.id) = true
    · simp [hid] at he
    · simp only [hid, Bool.false_eq_true, if_false] at he
      rcases hd : env.tmdbDetails a.id mt with _ | d
      · simp [hd] at he
      · simp only [hd] at he
        have hac : a = c := congrArg Prod.fst (Option.some.inj he)
        rw [hac] at hd
        rw [hnone] at hd
        exact Option.noConfusion hd

/-- A concrete source-details record (in the DC collection). -/
def detailsA : Details :=
  { id := 1, director := some "Nolan", cast := ["A", "B"], genres := ["Action"]
    keywords := ["hero"], companies := ["WB"], budget := 100, revenue := 0
    runtime := 120, rating := 8, release_year := "2010", collection := some "DC" }

/-- A concrete candidate-details record with no collection. -/
def detailsB : Details :=
  { id := 2, director := some "Nolan", cast := ["A"], genres := ["Action"]
    keywords := [], companies := [], budget := 80, revenue := 0
    runtime := 100, rating := 7, release_year := "2012", collection := none }

/-- A concrete candidate entry. -/
def candA : CandItem :=
  { id := 3, title := "Cand", overview := "", posterUrl := "", releaseDate := ""
    popularity := 20 }

/-- C5 witness: concrete bounds, and a concrete unfetchable candidate
that is skipped. -/
theorem c5_witness :
    (0 ≤ scorePair detailsA detailsB ∧ scorePair detailsA detailsB ≤ 180) ∧
      (candA, 0) ∉ scoreRecs envAllFail detailsA [candA] MediaType.movie :=
  ⟨⟨(c5_score_is_capped_factor_sum.1 detailsA detailsB).2.1,
    (c5_score_is_capped_factor_sum.1 detailsA detailsB).2.2⟩,
    c5_score_is_capped_factor_sum.2 envAllFail detailsA [candA] MediaType.movie candA 0 rfl⟩

/-! ### C8 — a new franchise match adds exactly 50, other candidates
unchanged -/

theorem scoreEntry_fst {e : Env} {s : Details} {mt : MediaType} {c : CandItem}
    {p : CandItem × ℚ} (h : scoreEntry e s mt c = some p) : p.1 = c := by
  unfold scoreEntry at h
  by_cases hid : (c.id == s.id) = true
  · rw [if_pos hid] at h
    exact Option.noConfusion h
  · rw [if_neg hid] at h
    cases hd : e.tmdbDetails c.id mt with
    | none => rw [hd] at h; exact Option.noConfusion h
    | some d =>
      rw [hd] at h
      exact (congrArg Prod.fst (Option.some.inj h)).symm

theorem filter_scoreEntry_agree (e1 e2 : Env) (s : Details) (mt : MediaType) (j : Nat)
    (hagree : ∀ i, i ≠ j → e1.tmdbDetails i mt = e2.tmdbDetails i mt) :
    ∀ cands : List CandItem,
      ((cands.filterMap (scoreEntry e1 s mt)).filter fun p => p.1.id != j) =
        ((cands.filterMap (scoreEntry e2 s mt)).filter fun p => p.1.id != j) := by
  intro cands
  induction cands with
  | nil => rfl
  | cons c cs ih =>
    by_cases hcj : c.id = j
    · have hdrop : ∀ (e : Env) (p : CandItem × ℚ), scoreEntry e s mt c = some p →
          (p.1.id != j) = false := by
        intro e p hp
        simp [scoreEntry_fst hp, hcj]
      simp only [List.filterMap_cons]
      cases h1 : scoreEntry e1 s mt c with
      | none =>
        cases h2 : scoreEntry e2 s mt c with
        | none => exact ih
        | some p2 => simp only [List.filter_cons, hdrop e2 p2 h2]; exact ih
      | some p1 =>
        cases h2 : scoreEntry e2 s mt c with
        | none => simp only [List.filter_cons, hdrop e1 p1 h1]; exact ih
        | some p2 =>
          simp only [List.filter_cons, hdrop e1 p1 h1, hdrop e2 p2 h2]
          exact ih
    · have hsame : scoreEntry e1 s mt c = scoreEntry e2 s mt c := by
        unfold scoreEntry
        rw [hagree c.id hcj]
      simp only [List.filterMap_cons, hsame]
      cases h2 : scoreEntry e2 s mt c with
      | none => exact ih
      | some p2 => simp only [List.filter_cons, ih]

/-- C8: turning an otherwise-identical candidate's collection from a
non-match into the source's non-empty collection raises its score by
exactly 50; and candidates with other ids receive exactly the same
scored entries when only the details of id `j` change. -/
theorem c8_franchise_adds_exactly_50 :
    (∀ (s d : Details) (str : String), s.collection = some str → str ≠ "" →
        franchiseFactor s d = 0 →
        scorePair s { d with collection := some str } = scorePair s d + 50) ∧
    (∀ (e1 e2 : Env) (s : Details) (cands : List CandItem) (mt : MediaType) (j : Nat),
        (∀ i, i ≠ j → e1.tmdbDetails i mt = e2.tmdbDetails i mt) →
        ((scoreRecs e1 s cands mt).filter fun p => p.1.id != j).Perm
          ((scoreRecs e2 s cands mt).filter fun p => p.1.id != j)) := by
  constructor
  · intro s d str hcol hstr hfm
    have hne : (str == "") = false := beq_eq_false_iff_ne.mpr hstr
    have hfm1 : franchiseFactor s { d with collection := some str } = 50 := by
      simp [franchiseFactor, hcol, truthyS, hne]
    have e2 : directorFactor s { d with collection := some str } = directorFactor s d := rfl
    have e3 : castFactor s { d with collection := some str } = castFactor s d := rfl
    have e4 : genreFactor s { d with collection := some str } = genreFactor s d := rfl
    have e5 : keywordFactor s { d with collection := some str } = keywordFactor s d := rfl
    have e6 : productionFactor s { d with collection := some str } = productionFactor s d := rfl
    have e7 : budgetFactor s { d with collection := some str } = budgetFactor s d := rfl
    have e8 : runtimeFactor s { d with collection := some str } = runtimeFactor s d := rfl
    have e9 : ratingFactor s { d with collection := some str } = ratingFactor s d := rfl
    have e10 : yearFactor s { d with collection := some str } = yearFactor s d := rfl
    rw [scorePair_eq_sum, scorePair_eq_sum, hfm1, hfm, e2, e3, e4, e5, e6, e7, e8, e9, e10]
    ring
  · intro e1 e2 s cands mt j hagree
    unfold scoreRecs
    have p1 := (sortDescBy_perm (fun p => p.2)
      (cands.filterMap (scoreEntry e1 s mt))).filter (fun p => p.1.id != j)
    have p2 := (sortDescBy_perm (fun p => p.2)
      (cands.filterMap (scoreEntry e2 s mt))).filter (fun p => p.1.id != j)
    exact p1.trans ((filter_scoreEntry_agree e1 e2 s mt j hagree cands) ▸ p2.symm)

/-- C8 witness: concrete source/candidate pair and a concrete
environment change that touches no other id. -/
theorem c8_witness :
    scorePair detailsA { detailsB with collection := some "DC" } =
        scorePair detailsA detailsB + 50 ∧
      ((scoreRecs envAllFail detailsA [candA] MediaType.movie).filter
          fun p => p.1.id != 5).Perm
        ((scoreRecs envAllFail detailsA [candA] MediaType.movie).filter
          fun p => p.1.id != 5) :=
  ⟨c8_franchise_adds_exactly_50.1 detailsA detailsB "DC" rfl (by decide) rfl,
   c8_franchise_adds_exactly_50.2 envAllFail envAllFail detailsA [candA] MediaType.movie 5
     (fun _ _ => rfl)⟩

/-! ### C3 — the recency/randomness pass is applied to every category -/

/-- The ranking pass returns a permutation of its input. -/
theorem scoreAndRank_perm (env : Env) (l : List Item) : (scoreAndRank env l).Perm l := by
  unfold scoreAndRank
  split
  · rename_i h
    rw [List.isEmpty_iff.mp h]
  · have h1 := (sortDescBy_perm (fun q : Item × ℚ => q.2)
      (l.enum.map fun p => (p.2, recencyScore env p.2.published_at + env.rand p.1 * (3/10)))).map
      (fun q : Item × ℚ => q.1)
    refine h1.trans ?_
    rw [List.map_map]
    have h2 : ((fun q : Item × ℚ => q.1) ∘
        fun p : ℕ × Item => (p.2, recencyScore env p.2.published_at + env.rand p.1 * (3/10))) =
          Prod.snd := rfl
    rw [h2, List.enum_map_snd]

/-- Seed details for the C3 scenario (a franchise, no genres). -/
def srcDetailsC3 : Details :=
  { id := 1, director := none, cast := [], genres := [], keywords := [], companies := []
    budget := 0, revenue := 0, runtime := 0, rating := 0, release_year := ""
    collection := some "F" }

/-- Candidate 2: same franchise as the seed (similarity score 50). -/
def candDetails2 : Details :=
  { id := 2, director := none, cast := [], genres := [], keywords := [], companies := []
    budget := 0, revenue := 0, runtime := 0, rating := 0, release_year := ""
    collection := some "F" }

/-- Candidate 3: nothing shared with the seed (similarity score 0). -/
def candDetails3 : Details :=
  { id := 3, director := none, cast := [], genres := [], keywords := [], companies := []
    budget := 0, revenue := 0, runtime := 0, rating := 0, release_year := ""
    collection := none }

/-- Raw TMDB search hit for the seed. -/
def rawSeedC3 : TmdbRaw :=
  { id := 1, title := "Seed", overview := "", posterPath := none
    releaseDate := "2020-01-01", popularity := 50 }

/-- Raw similar-items entry for candidate 2. -/
def rawTwoC3 : TmdbRaw :=
  { id := 2, title := "Two", overview := "", posterPath := none
    releaseDate := "2020-01-01", popularity := 20 }

/-- Raw similar-items entry for candidate 3. -/
def rawThreeC3 : TmdbRaw :=
  { id := 3, title := "Three", overview := "", posterPath := none
    releaseDate := "2020-01-01", popularity := 20 }

/-- An environment in which the structured movies pipeline succeeds
with two candidates ranked [2, 3] by similarity, while the random
draws of the diversity pass favour the second item. -/
def envC3 : Env :=
  { settings := settings0
    ytSearch := fun _ => none
    tmdbSearch := fun _ _ => some [rawSeedC3]
    tmdbDetails := fun i _ =>
      if i == 1 then some srcDetailsC3
      else if i == 2 then some candDetails2
      else if i == 3 then some candDetails3
      else none
    tmdbSimilar := fun _ _ => some [rawTwoC3, rawThreeC3]
    tmdbDiscover := fun _ _ => none
    tmdbProviders := fun i _ =>
      if i == 2 || i == 3 then some { flatrate := [8], buy := [] } else none
    tmdbTitle := fun _ _ => none
    daysOld := fun _ => none
    rand := fun i => if i == 0 then 0 else 1/2
    quote := fun s => s }

unseal Rat.add Rat.mul Rat.sub Rat.inv in
/-- C3, counterexample: the movies pipeline emits the candidates in
similarity order [2, 3], yet `get_recommendations` returns [3, 2] —
the structured-media results were re-ranked by the recency-plus-
randomness pass before being cached and returned. -/
theorem c3_movies_rerank_counterexample :
    ((findSimilarShows envC3 "dream" "movies").map Item.id = ["2", "3"]) ∧
      ((getRecommendations envC3 [] "movies" "dream" "US" 10).1.map Item.id = ["3", "2"]) := by
  constructor
  · rfl
  · rfl

/-- C3, amended: on every cache miss — whatever the category, movies
and tv included — the returned and cached list is the recency-plus-
randomness pass applied to the pipeline output (a permutation of it),
not the pipeline's own ordering. -/
theorem c3_rank_pass_applied_to_all (env : Env) (cache : Cache)
    (category searchQuery region : String) (limit : Nat)
    (hmiss : cacheLookup cache (mkCacheKey category searchQuery region) = none) :
    (getRecommendations env cache category searchQuery region limit).1 =
        (scoreAndRank env (dispatchCategory env category searchQuery region)).take limit ∧
      (scoreAndRank env (dispatchCategory env category searchQuery region)).Perm
        (dispatchCategory env category searchQuery region) := by
  constructor
  · simp [getRecommendations, hmiss]
  · exact scoreAndRank_perm env _

/-- C3 witness: the amended statement at the concrete reranking
environment. -/
theorem c3_witness :
    (getRecommendations envC3 [] "movies" "dream" "US" 10).1 =
        (scoreAndRank envC3 (dispatchCategory envC3 "movies" "dream" "US")).take 10 ∧
      (scoreAndRank envC3 (dispatchCategory envC3 "movies" "dream" "US")).Perm
        (dispatchCategory envC3 "movies" "dream" "US") :=
  c3_rank_pass_applied_to_all envC3 [] "movies" "dream" "US" 10 rfl

/-! ### C2 — the fallback guarantee -/

/-- The static fallback set a category's dispatch bottoms out at. -/
def fallbackItems (category searchQuery : String) : List Item :=
  if category == "youtube" then mockYoutubeResults searchQuery
  else if category == "tiktok" then mockShortsResults searchQuery
  else mockMovieResults searchQuery category

/-- When every catalog call fails, dispatch lands on the fallback
catalog for each of the four categories. -/
theorem dispatch_allFail (env : Env) (hfail : allCatalogsFail env)
    (category searchQuery region : String)
    (hcat : category ∈ (["youtube", "tiktok", "movies", "tv"] : List String)) :
    dispatchCategory env category searchQuery region =
      fallbackItems category searchQuery := by
  obtain ⟨h1, h2, h3, h4, h5, h6, h7⟩ := hfail
  simp only [List.mem_cons, List.not_mem_nil, or_false] at hcat
  rcases hcat with rfl | rfl | rfl | rfl
  · simp [dispatchCategory, fallbackItems, getYoutubeRecommendations, h1]
  · simp [dispatchCategory, fallbackItems, getTiktokRecommendations, tiktokVariants, h1,
          dedupById, mockShortsResults]
  · simp [dispatchCategory, fallbackItems, getMovieRecommendations, findSimilarShows,
          searchTmdb, searchYoutubeContent, h1, h2]
  · simp [dispatchCategory, fallbackItems, getMovieRecommendations, findSimilarShows,
          searchTmdb, searchYoutubeContent, h1, h2]

theorem mockMovieResults_ne_nil (searchQuery category : String) :
    mockMovieResults searchQuery category ≠ [] := by
  unfold mockMovieResults mockMovieSelect
  cases h1 : mockMovieBuckets.find? (fun kv => kv.1 == strToLower searchQuery) with
  | some kv =>
    have hm : kv ∈ mockMovieBuckets := List.mem_of_find?_eq_some h1
    have hne : ∀ x ∈ mockMovieBuckets, x.2 ≠ [] := by decide
    simp [List.map_eq_nil_iff, hne kv hm]
  | none =>
    cases h2 : mockMovieBuckets.find?
        (fun kv => strIn kv.1 (strToLower searchQuery)
          || strIn (strToLower searchQuery) kv.1) with
    | some kv =>
      have hm : kv ∈ mockMovieBuckets := List.mem_of_find?_eq_some h2
      have hne : ∀ x ∈ mockMovieBuckets, x.2 ≠ [] := by decide
      simp [h1, List.map_eq_nil_iff, hne kv hm]
    | none =>
      simp [h1, List.map_eq_nil_iff, mockMovieDefault]

theorem fallbackItems_ne_nil (category searchQuery : String) :
    fallbackItems category searchQuery ≠ [] := by
  unfold fallbackItems
  split
  · simp [mockYoutubeResults, mockYoutubeVideos]
  · split
    · simp [mockShortsResults, mockShortsVideos]
    · exact mockMovieResults_ne_nil searchQuery category

/-- C2: with all catalogs failing and a cache miss, the response is a
non-empty slice of the fallback catalog bounded by `limit`; in the
batman scenario the response is a permutation of the 6 curated batman
items (all tagged "movies") — but only a permutation: the diversity
pass may reorder them (see the counterexample). -/
theorem c2_fallback_guarantee :
    (∀ (env : Env) (cache : Cache) (category searchQuery region : String) (limit : Nat),
        allCatalogsFail env →
        category ∈ (["youtube", "tiktok", "movies", "tv"] : List String) →
        1 ≤ limit →
        cacheLookup cache (mkCacheKey category searchQuery region) = none →
        (getRecommendations env cache category searchQuery region limit).1 ≠ [] ∧
          (getRecommendations env cache category searchQuery region limit).1.length ≤ limit ∧
          ∀ x ∈ (getRecommendations env cache category searchQuery region limit).1,
            x ∈ fallbackItems category searchQuery) ∧
    (∀ (env : Env) (cache : Cache),
        allCatalogsFail env →
        cacheLookup cache (mkCacheKey "movies" "batman" "US") = none →
        (getRecommendations env cache "movies" "batman" "US" 6).1.Perm
            (mockMovieResults "batman" "movies") ∧
          (getRecommendations env cache "movies" "batman" "US" 6).1.length = 6 ∧
          ∀ x ∈ (getRecommendations env cache "movies" "batman" "US" 6).1,
            x.platform = "movies") := by
  constructor
  · intro env cache category searchQuery region limit hfail hcat hlim hmiss
    have hd := dispatch_allFail env hfail category searchQuery region hcat
    have hout : (getRecommendations env cache category searchQuery region limit).1 =
        (scoreAndRank env (fallbackItems category searchQuery)).take limit := by
      simp [getRecommendations, hmiss, hd]
    have hperm := scoreAndRank_perm env (fallbackItems category searchQuery)
    have hlen : (scoreAndRank env (fallbackItems category searchQuery)).length =
        (fallbackItems category searchQuery).length := hperm.length_eq
    have hpos : 0 < (fallbackItems category searchQuery).length :=
      List.length_pos.mpr (fallbackItems_ne_nil category searchQuery)
    refine ⟨?_, ?_, ?_⟩
    · rw [hout]
      intro hnil
      have hlen0 := congrArg List.length hnil
      rw [List.length_take] at hlen0
      simp only [List.length_nil] at hlen0
      omega
    · rw [hout]
      exact List.length_take_le _ _
    · intro x hx
      rw [hout] at hx
      exact hperm.mem_iff.mp (List.mem_of_mem_take hx)
  · intro env cache hfail hmiss
    have hd := dispatch_allFail env hfail "movies" "batman" "US" (by decide)
    have hfb : fallbackItems "movies" "batman" = mockMovieResults "batman" "movies" := rfl
    have hperm := scoreAndRank_perm env (mockMovieResults "batman" "movies")
    have hlen6 : (scoreAndRank env (mockMovieResults "batman" "movies")).length = 6 := by
      rw [hperm.length_eq]
      rfl
    have hout : (getRecommendations env cache "movies" "batman" "US" 6).1 =
        scoreAndRank env (mockMovieResults "batman" "movies") := by
      simp [getRecommendations, hmiss, hd, hfb]
      exact le_of_eq hlen6
    refine ⟨?_, ?_, ?_⟩
    · rw [hout]
      exact hperm
    · rw [hout]
      exact hlen6
    · intro x hx
      rw [hout] at hx
      have hxm := hperm.mem_iff.mp hx
      have hall : ∀ y ∈ mockMovieResults "batman" "movies", y.platform = "movies" := by decide
      exact hall x hxm

/-- The all-catalogs-failing environment whose random draws favour
every item after the first. -/
def envC2x : Env :=
  { envAllFail with rand := fun i => if i == 0 then 0 else 1/2 }

unseal Rat.add Rat.mul Rat.sub Rat.inv in
/-- C2, counterexample: with all catalogs failing, the batman request
does NOT return exactly the curated list — the diversity pass's random
draws reorder it (the first curated item ends up last). -/
theorem c2_exact_output_counterexample :
    allCatalogsFail envC2x ∧
      (getRecommendations envC2x [] "movies" "batman" "US" 6).1 ≠
        mockMovieResults "batman" "movies" := by
  constructor
  · exact ⟨fun _ => rfl, fun _ _ => rfl, fun _ _ => rfl, fun _ _ => rfl,
      fun _ _ => rfl, fun _ _ => rfl, fun _ _ => rfl⟩
  · decide

/-- C2 witness: both parts of the amended statement at the concrete
all-failing environment. -/
theorem c2_witness :
    ((getRecommendations envAllFail [] "youtube" "dogs" "US" 20).1 ≠ [] ∧
        (getRecommendations envAllFail [] "youtube" "dogs" "US" 20).1.length ≤ 20 ∧
        ∀ x ∈ (getRecommendations envAllFail [] "youtube" "dogs" "US" 20).1,
          x ∈ fallbackItems "youtube" "dogs") ∧
      ((getRecommendations envAllFail [] "movies" "batman" "US" 6).1.Perm
          (mockMovieResults "batman" "movies") ∧
        (getRecommendations envAllFail [] "movies" "batman" "US" 6).1.length = 6 ∧
        ∀ x ∈ (getRecommendations envAllFail [] "movies" "batman" "US" 6).1,
          x.platform = "movies") :=
  ⟨c2_fallback_guarantee.1 envAllFail [] "youtube" "dogs" "US" 20
      ⟨fun _ => rfl, fun _ _ => rfl, fun _ _ => rfl, fun _ _ => rfl,
        fun _ _ => rfl, fun _ _ => rfl, fun _ _ => rfl⟩
      (by decide) (by decide) rfl,
    c2_fallback_guarantee.2 envAllFail []
      ⟨fun _ => rfl, fun _ _ => rfl, fun _ _ => rfl, fun _ _ => rfl,
        fun _ _ => rfl, fun _ _ => rfl, fun _ _ => rfl⟩
      rfl⟩

/-! ### C1 — size bound and id uniqueness -/

/-- The environment property under which ids stay unique: every
YouTube search response carries pairwise-distinct video ids.  (The
plain YouTube path and the structured-media fallback forward the
response items without any deduplication, so this is genuinely needed
— see the counterexample.) -/
def ytDistinct (env : Env) : Prop :=
  ∀ p resp, env.ytSearch p = some resp → (resp.items.filterMap YtItem.videoId).Nodup

theorem map_id_filterMap_transform (l : List YtItem) :
    ((l.filterMap transformYoutubeItem).map Item.id) = l.filterMap YtItem.videoId := by
  induction l with
  | nil => rfl
  | cons it rest ih =>
    cases hv : it.videoId with
    | none => simp [List.filterMap_cons, transformYoutubeItem, hv, ih]
    | some v => simp [List.filterMap_cons, transformYoutubeItem, hv, ih]

theorem mem_dedupById (seen : List String) (l : List Item) :
    ∀ s ∈ (dedupById seen l).map Item.id, s ∉ seen := by
  induction l generalizing seen with
  | nil => intro s hs; simp [dedupById] at hs
  | cons r rs ih =>
    intro s hs
    rw [dedupById] at hs
    split at hs
    · exact ih seen s hs
    · rename_i hrid
      simp only [List.map_cons, List.mem_cons] at hs
      rcases hs with rfl | hs
      · exact hrid
      · intro hseen
        exact ih (r.id :: seen) s hs (List.mem_cons_of_mem _ hseen)

theorem dedupById_ids_nodup (seen : List String) (l : List Item) :
    ((dedupById seen l).map Item.id).Nodup := by
  induction l generalizing seen with
  | nil => simp [dedupById]
  | cons r rs ih =>
    rw [dedupById]
    split
    · exact ih seen
    · simp only [List.map_cons, List.nodup_cons]
      refine ⟨?_, ih (r.id :: seen)⟩
      intro hmem
      exact mem_dedupById (r.id :: seen) rs r.id hmem (List.mem_cons_self _ _)

theorem mockYoutube_ids_nodup (q : String) :
    ((mockYoutubeResults q).map Item.id).Nodup := by
  have h : (mockYoutubeResults q).map Item.id =
      ["jk7GA4EZZrw", "h4T_LlK1VE4", "IxkSlnrRFqc", "TUXpoM9OY3M",
       "5iPH-br_eJQ", "jHbyQ_AQP8c", "rf0Lsjewg8c", "jG7dSXcfVqE"] := rfl
  rw [h]
  decide

theorem mockShorts_ids_nodup (q : String) :
    ((mockShortsResults q).map Item.id).Nodup := by
  have h : (mockShortsResults q).map Item.id =
      ["nXA_f0xBSjw", "8VGF-rQqF7Q", "2g6J6vT5mBU", "J---aiyznGQ", "0FTw0UHb3vw",
       "dQw4w9WgXcQ", "9bZkp7q19f0", "K5le9sYdYkM", "YbJOTdZBX1g", "2Vv-BfVoq4g"] := rfl
  rw [h]
  decide

theorem mockMovieResults_map_id (q cat : String) :
    (mockMovieResults q cat).map Item.id =
      (mockMovieSelect (strToLower q)).map (fun t => t.2.1) := by
  unfold mockMovieResults
  rw [List.map_map]
  rfl

theorem mockMovie_ids_nodup (q cat : String) :
    ((mockMovieResults q cat).map Item.id).Nodup := by
  rw [mockMovieResults_map_id]
  have hbuckets : ∀ x ∈ mockMovieBuckets,
      ((x.2.map fun t : String × String × String => t.2.1).Nodup) := by decide
  unfold mockMovieSelect
  cases h1 : mockMovieBuckets.find? (fun kv => kv.1 == strToLower q) with
  | some kv => exact hbuckets kv (List.mem_of_find?_eq_some h1)
  | none =>
    cases h2 : mockMovieBuckets.find?
        (fun kv => strIn kv.1 (strToLower q) || strIn (strToLower q) kv.1) with
    | some kv => exact hbuckets kv (List.mem_of_find?_eq_some h2)
    | none => decide

theorem getYoutube_ids_nodup (env : Env) (hyt : ytDistinct env) (q region : String) :
    ((getYoutubeRecommendations env q region).map Item.id).Nodup := by
  unfold getYoutubeRecommendations
  cases h : env.ytSearch (ytRecParams env q region) with
  | none => exact mockYoutube_ids_nodup q
  | some resp =>
    by_cases he : resp.hasError
    · simp only [he, if_true]
      exact mockYoutube_ids_nodup q
    · simp only [he, Bool.false_eq_true, if_false]
      split
      · exact mockYoutube_ids_nodup q
      · rw [map_id_filterMap_transform]
        exact hyt _ resp h

theorem tiktok_branch_nodup (q : String) (results : List Item) :
    ((if (dedupById [] results).isEmpty then mockShortsResults q
      else (dedupById [] results).take 15).map Item.id).Nodup := by
  split
  · exact mockShorts_ids_nodup q
  · rw [List.map_take]
    exact (dedupById_ids_nodup [] _).sublist (List.take_sublist _ _)

theorem getTiktok_ids_nodup (env : Env) (q region : String) :
    ((getTiktokRecommendations env q region).map Item.id).Nodup :=
  tiktok_branch_nodup q _

theorem insertKeyed_ids_nodup (acc : List CandItem) (it : CandItem)
    (h : (acc.map CandItem.id).Nodup) : ((insertKeyed acc it).map CandItem.id).Nodup := by
  unfold insertKeyed
  split
  · have hids : (acc.map fun c => if c.id == it.id then it else c).map CandItem.id =
        acc.map CandItem.id := by
      rw [List.map_map]
      apply List.map_congr_left
      intro c _
      by_cases hc : (c.id == it.id) = true
      · simp only [Function.comp_apply, if_pos hc]
        exact (beq_iff_eq.mp hc).symm
      · simp only [Function.comp_apply, if_neg hc]
    rw [hids]
    exact h
  · rename_i hany
    rw [List.map_append]
    simp only [List.map_cons, List.map_nil]
    rw [List.nodup_append]
    refine ⟨h, List.nodup_singleton _, ?_⟩
    intro a ha hb
    simp only [List.mem_singleton] at hb
    subst hb
    obtain ⟨c, hc, hcid⟩ := List.mem_map.mp ha
    apply hany
    rw [List.any_eq_true]
    exact ⟨c, hc, beq_iff_eq.mpr hcid⟩

theorem foldl_insertKeyed_ids_nodup :
    ∀ (l : List CandItem) (acc : List CandItem), (acc.map CandItem.id).Nodup →
      ((l.foldl insertKeyed acc).map CandItem.id).Nodup
  | [], _, h => h
  | x :: xs, acc, h =>
    foldl_insertKeyed_ids_nodup xs (insertKeyed acc x) (insertKeyed_ids_nodup acc x h)

theorem discoverStep_ids_nodup (mediaId : Nat) (acc : List CandItem) (it : TmdbRaw)
    (h : (acc.map CandItem.id).Nodup) :
    ((discoverStep mediaId acc it).map CandItem.id).Nodup := by
  unfold discoverStep
  split
  · rename_i hc
    rw [List.map_append]
    simp only [List.map_cons, List.map_nil]
    rw [List.nodup_append]
    refine ⟨h, List.nodup_singleton _, ?_⟩
    intro a ha hb
    simp only [List.mem_singleton] at hb
    subst hb
    obtain ⟨c, hcm, hcid⟩ := List.mem_map.mp ha
    have hall : acc.all (fun c => !(c.id == it.id)) = true := by
      rcases Bool.and_eq_true_iff.mp hc with ⟨h1, _⟩
      rcases Bool.and_eq_true_iff.mp h1 with ⟨h2, _⟩
      exact h2
    have := (List.all_eq_true.mp hall) c hcm
    simp only [Bool.not_eq_eq_eq_not, Bool.not_true, beq_eq_false_iff_ne] at this
    exact this (by rw [hcid]; rfl)
  · exact h

theorem foldl_discoverStep_ids_nodup (mediaId : Nat) :
    ∀ (l : List TmdbRaw) (acc : List CandItem), (acc.map CandItem.id).Nodup →
      ((l.foldl (discoverStep mediaId) acc).map CandItem.id).Nodup
  | [], _, h => h
  | x :: xs, acc, h =>
    foldl_discoverStep_ids_nodup mediaId xs (discoverStep mediaId acc x)
      (discoverStep_ids_nodup mediaId acc x h)

theorem multiCands_branch_nodup (mediaId : Nat) (disc : Option (List TmdbRaw))
    (cands1 : List CandItem) (isE : Bool) (h1 : (cands1.map CandItem.id).Nodup) :
    (((if isE then cands1
        else
          match disc with
          | none => cands1
          | some results => (results.take 15).foldl (discoverStep mediaId) cands1)).map
          CandItem.id).Nodup := by
  split
  · exact h1
  · cases disc with
    | none => exact h1
    | some results => exact foldl_discoverStep_ids_nodup mediaId _ cands1 h1

theorem multiStrategy_ids_nodup (env : Env) (mediaId : Nat) (mt : MediaType)
    (src : Details) : ((multiStrategy env mediaId mt src).map CandItem.id).Nodup := by
  have h1 : (((getTmdbSimilar env mediaId mt).foldl insertKeyed []).map CandItem.id).Nodup :=
    foldl_insertKeyed_ids_nodup _ [] (by simp)
  have h2 := multiCands_branch_nodup mediaId (env.tmdbDiscover (genreIds src.genres) mt)
    ((getTmdbSimilar env mediaId mt).foldl insertKeyed []) src.genres.isEmpty h1
  show ((List.take 30 _).map CandItem.id).Nodup
  rw [List.map_take]
  exact h2.sublist (List.take_sublist _ _)

theorem filterMap_scoreEntry_ids_sublist (env : Env) (s : Details) (mt : MediaType) :
    ∀ cands : List CandItem,
      (((cands.filterMap (scoreEntry env s mt)).map fun p => p.1.id)).Sublist
        (cands.map CandItem.id) := by
  intro cands
  induction cands with
  | nil => simp
  | cons c cs ih =>
    simp only [List.filterMap_cons, List.map_cons]
    cases h : scoreEntry env s mt c with
    | none => exact ih.cons _
    | some p =>
      simp only [List.map_cons]
      rw [scoreEntry_fst h]
      exact ih.cons₂ _

theorem scoreRecs_ids_nodup (env : Env) (s : Details) (cands : List CandItem)
    (mt : MediaType) (h : (cands.map CandItem.id).Nodup) :
    (((scoreRecs env s cands mt).map fun p : CandItem × ℚ => p.1.id)).Nodup := by
  have hperm := (sortDescBy_perm (fun p : CandItem × ℚ => p.2)
    (cands.filterMap (scoreEntry env s mt))).map (fun p : CandItem × ℚ => p.1.id)
  exact hperm.nodup_iff.mpr (h.sublist (filterMap_scoreEntry_ids_sublist env s mt cands))

theorem mkShowItem_id (env : Env) (mt : MediaType) (c : CandItem)
    (platforms : List Platform) (primary : Platform) :
    (mkShowItem env mt c platforms primary).id = natToStr c.id := rfl

theorem availLoop_ids (env : Env) (mt : MediaType) :
    ∀ (l : List (CandItem × ℚ)) (acc : List Item),
      ∃ t : List Nat, t.Sublist (l.map fun p => p.1.id) ∧
        (availLoop env mt l acc).map Item.id = acc.map Item.id ++ t.map natToStr := by
  intro l
  induction l with
  | nil => exact fun acc => ⟨[], List.nil_sublist _, by simp [availLoop]⟩
  | cons hd rest ih =>
    intro acc
    obtain ⟨c, sc⟩ := hd
    rw [availLoop]
    cases hp : getTmdbWatchProviders env c.id mt with
    | nil =>
      simp only
      split
      · exact ⟨[], List.nil_sublist _, by simp⟩
      · obtain ⟨t, hsub, heq⟩ := ih acc
        exact ⟨t, hsub.cons _, heq⟩
    | cons p ps =>
      simp only
      split
      · refine ⟨[c.id], (List.nil_sublist _).cons₂ _, ?_⟩
        simp [mkShowItem_id]
      · obtain ⟨t, hsub, heq⟩ :=
          ih (acc ++ [mkShowItem env mt c (p :: ps) (primaryPlatform p (p :: ps))])
        refine ⟨c.id :: t, hsub.cons₂ _, ?_⟩
        rw [heq]
        simp [mkShowItem_id]

theorem searchYoutubeContent_ids_nodup (env : Env) (hyt : ytDistinct env)
    (q region : String) (limit : Nat) :
    ((searchYoutubeContent env q region limit).map Item.id).Nodup := by
  unfold searchYoutubeContent
  cases h : env.ytSearch (contentParams q region limit) with
  | none => simp
  | some resp =>
    rw [map_id_filterMap_transform]
    exact hyt _ resp h

theorem findSimilarShows_ids_nodup (env : Env) (hyt : ytDistinct env)
    (q category : String) :
    ((findSimilarShows env q category).map Item.id).Nodup := by
  simp only [findSimilarShows]
  split
  · exact searchYoutubeContent_ids_nodup env hyt _ _ _
  · split
    · exact searchYoutubeContent_ids_nodup env hyt _ _ _
    · rename_i hit hh1 hd src hh2
      obtain ⟨t, hsub, heq⟩ := availLoop_ids env (mediaTypeOf category)
        ((scoreRecs env src (multiStrategy env hit.id (mediaTypeOf category) src)
          (mediaTypeOf category)).take 30) []
      rw [heq]
      simp only [List.map_nil, List.nil_append]
      have hc : ((multiStrategy env hit.id (mediaTypeOf category) src).map CandItem.id).Nodup :=
        multiStrategy_ids_nodup env hit.id (mediaTypeOf category) src
      have hs : (((scoreRecs env src (multiStrategy env hit.id (mediaTypeOf category) src)
          (mediaTypeOf category)).take 30).map fun p : CandItem × ℚ => p.1.id).Nodup := by
        rw [List.map_take]
        exact (scoreRecs_ids_nodup env src _ _ hc).sublist (List.take_sublist _ _)
      exact (hs.sublist hsub).map natToStr_injective

theorem movie_branch_nodup (q category : String) (similarShows : List Item)
    (h : (similarShows.map Item.id).Nodup) :
    ((if similarShows.isEmpty then mockMovieResults q category
      else similarShows.take 15).map Item.id).Nodup := by
  split
  · exact mockMovie_ids_nodup q category
  · rw [List.map_take]
    exact h.sublist (List.take_sublist _ _)

theorem getMovie_ids_nodup (env : Env) (hyt : ytDistinct env)
    (q region category : String) :
    ((getMovieRecommendations env q region category).map Item.id).Nodup :=
  movie_branch_nodup q category _ (findSimilarShows_ids_nodup env hyt q category)

theorem dispatch_ids_nodup (env : Env) (hyt : ytDistinct env)
    (category q region : String) :
    ((dispatchCategory env category q region).map Item.id).Nodup := by
  unfold dispatchCategory
  split
  · exact getYoutube_ids_nodup env hyt q region
  · split
    · exact getTiktok_ids_nodup env q region
    · split
      · exact getMovie_ids_nodup env hyt q region category
      · simp

/-- C1, amended: on a cache miss the response length is at most
`limit` always; the response ids are pairwise distinct provided every
YouTube search response has distinct video ids (the tiktok and
structured-media pipelines deduplicate on their own, but the plain
YouTube path and the movies/tv YouTube fallback forward the upstream
items untouched). -/
theorem c1_size_and_unique_ids (env : Env) (cache : Cache)
    (category searchQuery region : String) (limit : Nat)
    (hyt : ytDistinct env)
    (hmiss : cacheLookup cache (mkCacheKey category searchQuery region) = none) :
    (getRecommendations env cache category searchQuery region limit).1.length ≤ limit ∧
      ((getRecommendations env cache category searchQuery region limit).1.map
        Item.id).Nodup := by
  have hout : (getRecommendations env cache category searchQuery region limit).1 =
      (scoreAndRank env (dispatchCategory env category searchQuery region)).take limit := by
    simp [getRecommendations, hmiss]
  constructor
  · rw [hout]
    exact List.length_take_le _ _
  · rw [hout, List.map_take]
    exact (((scoreAndRank_perm env _).map Item.id).nodup_iff.mpr
      (dispatch_ids_nodup env hyt category searchQuery region)).sublist
      (List.take_sublist _ _)

/-- A raw YouTube item with video id "X". -/
def ytDupItem : YtItem :=
  { videoId := some "X", title := "Dup", description := "", thumbnail := ""
    channel := "C", publishedAt := "2024-01-15T12:00:00Z" }

/-- An environment whose YouTube search returns the same item twice —
the plain youtube path forwards both copies. -/
def envDupYt : Env :=
  { envAllFail with ytSearch := fun _ => some { hasError := false, items := [ytDupItem, ytDupItem] } }

unseal Rat.add Rat.mul Rat.sub Rat.inv in
/-- C1, counterexample: on a valid input (category "youtube",
non-empty query, limit 10) the length bound holds but the returned ids
are NOT unique — the plain YouTube path performs no deduplication, so
a search response listing the same video twice is forwarded as two
items with the same id. -/
theorem c1_duplicate_ids_counterexample :
    (getRecommendations envDupYt [] "youtube" "dogs" "US" 10).1.length ≤ 10 ∧
      ¬ ((getRecommendations envDupYt [] "youtube" "dogs" "US" 10).1.map Item.id).Nodup := by
  constructor
  · decide
  · decide

/-- C1 witness: the amended statement at a concrete environment (all
catalogs failing, so the YouTube-distinctness hypothesis holds
vacuously) and a concrete valid input. -/
theorem c1_witness :
    (getRecommendations envAllFail [] "youtube" "dogs" "US" 20).1.length ≤ 20 ∧
      ((getRecommendations envAllFail [] "youtube" "dogs" "US" 20).1.map Item.id).Nodup :=
  c1_size_and_unique_ids envAllFail [] "youtube" "dogs" "US" 20
    (fun _ _ h => Option.noConfusion h) rfl

end StreamFinder
